import Mathlib

/-
Shallow embedding of the Flight data-transfer client in
src/venv/Lib/site-packages/ibm_watson_machine_learning/helpers/flight/service.py.

Modelling conventions:
* A pandas DataFrame is modelled by the list of its per-row byte sizes
  (structure Df).  sys.getsizeof(df) is abstracted as the sum of the row
  sizes, which is exactly the additive size model the source itself relies
  on when it estimates row_size as getsizeof(df.iloc[:2]) - getsizeof(df.iloc[:1])
  and accounts totals as row_size * len(df).
* Python float arithmetic (the single true division DATA_SIZE_LIMIT / row_size
  fed to round, and the float batch_fraction in get_batch_limit) is abstracted
  as exact rational arithmetic; round is Python round, i.e. half-to-even.
* The reader threads of FlightService.read all mutate the shared state
  (dfs, stop_reading) only inside the lock_read critical section, and a thread
  that skips at the outer stop_reading check has no effect on the shared state,
  so every reachable shared state of the real program is the fold of the
  per-batch decision over the endpoint outcomes in some arrival order.  A run
  is therefore a list of endpoint outcomes (Except: an exception raised by
  _get_data, or a fetched batch) processed sequentially.
* An exception raised inside a reader thread (DataStreamError from _get_data,
  or ZeroDivisionError in the decision code) terminates only that thread;
  threading.Thread.join does not re-raise it, so the shared state is unchanged.
-/

namespace Flight

/-- DATA_SIZE_LIMIT from service.py line 37: 1GB in bytes. -/
def DATA_SIZE_LIMIT : Nat := 1073741824

/-- A DataFrame, abstracted as the list of its per-row byte sizes. -/
structure Df where
  rows : List Nat
deriving DecidableEq

/-- sys.getsizeof, abstracted additively (see header comment). -/
def getsizeof (df : Df) : Nat := df.rows.sum

/-- len(df): the number of rows. -/
def Df.len (df : Df) : Nat := df.rows.length

/-- df.iloc\x5b:n\x5d for nonnegative n: the first n rows. -/
def Df.iloc (df : Df) (n : Nat) : Df := ⟨df.rows.take n⟩

/-- row_size = sys.getsizeof(df.iloc\x5b:2\x5d) - sys.getsizeof(df.iloc\x5b:1\x5d)
(service.py line 348): the size of the second row when there are at least
two rows, 0 otherwise. -/
def row_size_est (df : Df) : Nat := getsizeof (df.iloc 2) - getsizeof (df.iloc 1)

/-- Python round(a / b) on nonnegative integers: round half to even of the
exact rational a / b. -/
def pyRound (a b : Nat) : Nat :=
  let q := a / b
  let r := a % b
  if 2 * r < b then q
  else if b < 2 * r then q + 1
  else if q % 2 = 0 then q else q + 1

/-- The shared state mutated by the reader threads: the list dfs of accepted
batches and the stop_reading flag (service.py lines 86-87, 384). -/
structure ReadState where
  dfs : List Df
  stop_reading : Bool
deriving DecidableEq

/-- Initial shared state: dfs = \x5b\x5d, stop_reading = False. -/
def initState : ReadState := ⟨[], false⟩

/-- total_size = sum(\x5brow_size * len(data) for data in dfs\x5d)
(service.py line 359): note it prices every already-accepted batch with the
CURRENT batch's estimated row size. -/
def total_size (row_size : Nat) (dfs : List Df) : Nat :=
  (dfs.map (fun d => row_size * d.len)).sum

/-- FlightService._read_batch, service.py lines 346-369: the decision taken
under lock_read once a batch has been fetched.  A branch that would divide
by a zero row_size raises ZeroDivisionError in Python, which kills only the
reader thread, so it leaves the shared state unchanged here. -/
def read_batch (st : ReadState) (df : Df) : ReadState :=
  if st.stop_reading then st
  else
    let row_size := row_size_est df
    if DATA_SIZE_LIMIT < getsizeof df then
      if row_size = 0 then st
      else ⟨st.dfs ++ [df.iloc (pyRound DATA_SIZE_LIMIT row_size)], true⟩
    else
      let total := total_size row_size st.dfs
      if total ≤ DATA_SIZE_LIMIT then
        if row_size = 0 then st
        else ⟨st.dfs ++ [df.iloc ((DATA_SIZE_LIMIT - total) / row_size)], st.stop_reading⟩
      else ⟨st.dfs, true⟩

/-- One endpoint outcome: the batch fetched by _get_data, or the exception
(e.g. DataStreamError) the fetch raised inside the thread. -/
abbrev Outcome := Except String Df

/-- The effect on the shared state of all reader threads, processed in their
(arbitrary) arrival order; a thread whose fetch raised contributes nothing. -/
def run_reads (outs : List Outcome) (st : ReadState) : ReadState :=
  outs.foldl (fun s o => match o with
    | Except.error _ => s
    | Except.ok df => read_batch s df) st

/-- Sum of the (estimated) sizes of a list of accepted batches. -/
def sumBytes (dfs : List Df) : Nat := (dfs.map getsizeof).sum

/-- pd.concat(dfs): row lists concatenated. -/
def concatDfs (dfs : List Df) : Df := ⟨(dfs.map Df.rows).flatten⟩

/-- df.iloc\x5b:k\x5d for a possibly negative bound, Python slice semantics:
a negative bound keeps all but the last -k rows. -/
def ilocInt (df : Df) (k : Int) : Df :=
  if 0 ≤ k then ⟨df.rows.take k.toNat⟩
  else ⟨df.rows.take (df.rows.length - k.natAbs)⟩

/-- FlightService.read, service.py lines 376-418: fan out one reader per
endpoint, join, pd.concat (which raises on an empty list), then the final
global truncation pass.  Both divisions by zero raise ZeroDivisionError.
The two integer divisions are Python floor divisions; their operands are
nonnegative here so Int division agrees. -/
def read (outs : List Outcome) : Except String Df :=
  let final := run_reads outs initState
  if final.dfs.isEmpty then Except.error "No objects to concatenate"
  else
    let dfs := concatDfs final.dfs
    if dfs.len = 0 then Except.error "ZeroDivisionError"
    else
      let estimated_data_size := getsizeof dfs
      let estimated_row_size := estimated_data_size / dfs.len
      let size_over_limit : Int := (estimated_data_size : Int) - (DATA_SIZE_LIMIT : Int)
      if 0 < size_over_limit then
        if estimated_row_size = 0 then Except.error "ZeroDivisionError"
        else
          let upper_limit : Int := (dfs.len : Int) - size_over_limit / (estimated_row_size : Int) * 2
          Except.ok (ilocInt dfs upper_limit)
      else Except.ok dfs

/-- FlightService.get_batch_limit, service.py lines 306-326, as a function of
the row count and estimated row size it obtains from the two probe queries.
max_rows = 0 (row_size = 0 or row_size > DATA_SIZE_LIMIT) makes Python raise
ZeroDivisionError at the division by max_rows. -/
def get_batch_limit (row_count row_size : Nat) : Except String Nat :=
  let max_rows := DATA_SIZE_LIMIT / row_size
  if max_rows = 0 then Except.error "ZeroDivisionError"
  else
    let batch_fraction : ℚ := (row_count : ℚ) / (max_rows : ℚ)
    if 1 / 10 ≤ batch_fraction ∧ batch_fraction ≤ 1 then Except.ok 5
    else if batch_fraction < 1 / 10 then Except.ok 1
    else Except.ok (Nat.ceil batch_fraction + 10)

/-- Python dict lookup on the key-value maps of the source (connection and
interaction properties), modelled as association lists with distinct keys. -/
def lookup? : List (String × String) → String → Option String
  | [], _ => none
  | p :: rest, k => if p.1 = k then some p.2 else lookup? rest k

/-- Python del d\x5bk\x5d, successful case: remove the key. -/
def eraseKey : List (String × String) → String → List (String × String)
  | [], _ => []
  | p :: rest, k => if p.1 = k then eraseKey rest k else p :: eraseKey rest k

/-- service.py lines 457-463: the try/except around the two dels.  del raises
KeyError on a missing key and the bare except catches it, so when
username_password_security is absent NOTHING is deleted, and when it is
present but username_password_encryption is absent only the former goes. -/
def del_sensitive_props (props : List (String × String)) : List (String × String) :=
  match lookup? props "username_password_security" with
  | none => props
  | some _ =>
    let p1 := eraseKey props "username_password_security"
    match lookup? p1 "username_password_encryption" with
    | none => p1
    | some _ => eraseKey p1 "username_password_encryption"

/-- Helper for pySplit: accumulate characters up to each separator. -/
def splitCharAux (sep : Char) : List Char → List Char → List (List Char)
  | [], acc => [acc.reverse]
  | c :: cs, acc =>
    if c = sep then acc.reverse :: splitCharAux sep cs []
    else splitCharAux sep cs (c :: acc)

/-- Python str.split(sep) for a one-character separator (service.py line 216
splits the connection path on the slash). -/
def pySplit (s : String) (sep : Char) : List String :=
  (splitCharAux sep s.data []).map (fun l => { data := l })

/-- Python sep.join(parts). -/
def joinWith (sep : String) : List String → String
  | [] => ""
  | [x] => x
  | x :: xs => x ++ sep ++ joinWith sep xs

/-- The attachment metadata consumed by the resolver: the datasource-type
asset id, the optional connection_path, and the interaction-property map. -/
structure Attachment where
  datasource_type : String
  connection_path : Option String
  interaction_properties : List (String × String)
deriving DecidableEq

/-- The typed errors of helpers/flight/errors.py plus the raw Python
exceptions the resolver can raise (NotImplementedError, KeyError,
IndexError, ZeroDivisionError as pyError). -/
inductive FlightError where
  | missingFileName
  | notImplemented
  | dataSourceTypeNotRecognized (t : Option String)
  | indexError
  | keyError (k : String)
  | pyError (msg : String)
deriving DecidableEq

/-- FlightService._get_names, service.py lines 207-239.  Elements are
Option String because the file branch starts the list with Python None to
stay compatible with the positional split. -/
def get_names (att : Attachment) (data_source_type : Option String) :
    Except FlightError (List (Option String)) :=
  match att.connection_path with
  | some p => Except.ok ((pySplit p '/').map some)
  | none =>
    if data_source_type = some "database" then
      match lookup? att.interaction_properties "schema_name",
            lookup? att.interaction_properties "table_name" with
      | some s, some t => Except.ok [some s, some t]
      | none, _ => Except.error (FlightError.keyError "schema_name")
      | some _, none => Except.error (FlightError.keyError "table_name")
    else if data_source_type = some "file" then
      let base := [none] ++ (match lookup? att.interaction_properties "bucket" with
        | some b => [some b]
        | none => [])
      match lookup? att.interaction_properties "file_name" with
      | some f => Except.ok (base ++ [some f])
      | none => Except.error FlightError.missingFileName
    else if data_source_type = some "generic" then Except.error FlightError.notImplemented
    else Except.error (FlightError.keyError "names")

/-- service.py lines 450-455: map the attachment's datasource-type asset id
to a source-type tag through the resources returned by the
_list_data_source_types lookup; first match wins, no match leaves None. -/
def classify_source_type (resources : List (String × String)) (asset_id : String) :
    Option String :=
  (resources.find? (fun r => r.1 == asset_id)).map (fun r => r.2)

/-- The network interactions the resolver and planner can issue: the
datasource-types metadata HTTP GET (service.py lines 425-441), the Flight
authenticate handshake, get_flight_info (session open) and do_get
(endpoint read). -/
inductive NetEvent where
  | listDataSourceTypes
  | authenticate
  | getFlightInfo
  | doGet
deriving DecidableEq

/-- interaction_properties of a database command (service.py lines 488-491). -/
structure DbInteraction where
  schema_name : String
  table_name : String
deriving DecidableEq

/-- interaction_properties of a file command (service.py lines 518-522, 526):
bucket may be Python None when the positional names carry none. -/
structure FileInteraction where
  infer_schema : String
  file_name : String
  bucket : Option String
  extra : List (String × String)
deriving DecidableEq

/-- The interaction-property payload of a serialized command. -/
inductive InteractionProps where
  | db (p : DbInteraction)
  | file (p : FileInteraction)
deriving DecidableEq

/-- One serialized session-initiation command (json.dumps abstracted away). -/
structure Command where
  datasource_type_name : String
  connection_properties : List (String × String)
  interaction_properties : InteractionProps
  num_partitions : Nat
deriving DecidableEq

/-- The inputs _select_source_command consumes: instance fields of
FlightService plus, as oracle values, the row count and row size that the
database probe queries would return, and the caller-supplied interaction
hints that helpers/flight/utils.py would merge for files. -/
structure SelectInputs where
  resources : List (String × String)
  attachment : Attachment
  properties : List (String × String)
  type_name : String
  n_batches : Nat
  row_count : Nat
  row_size : Nat
  cos_props : List (String × String)
deriving DecidableEq

/-- Modelled from the spec: discover_input_data together with
prepare_cos_data_location (both defined in helpers/flight/utils.py, which is
absent from src/).  Spec section 4.2 says one command is built per discovered
file part, from object-storage listing or a single explicit file, and
scenario B fixes the single-explicit-file case: the discovered input key is
the connection path joined back together after the conn and bucket segments. -/
def discover_input_data (names : List (Option String)) : List String :=
  [joinWith "/" ((names.drop 2).map (fun o => o.getD ""))]

/-- FlightService._select_source_command, service.py lines 444-538.  The
datasource-types lookup is always issued first, because the source-type tag
is classified from its response.  The database planner probes (get_batch_limit
via get_row_size and get_number_of_data_rows) each authenticate, open a
session and read one endpoint.  prepare_interaction_props_for_cos and
prepare_payload_for_excel live in the absent utils.py; modelled from the
spec as merging the caller-supplied hints (cos_props) into the
interaction properties and leaving the file key unchanged; check_location
is modelled as accepting (its failure modes are outside every claim). -/
def select_source_command (inp : SelectInputs) :
    List NetEvent × Except FlightError (List Command) :=
  let ev0 : List NetEvent := [NetEvent.listDataSourceTypes]
  let dst := classify_source_type inp.resources inp.attachment.datasource_type
  let props := del_sensitive_props inp.properties
  if dst = some "database" then
    let ev := ev0 ++ [NetEvent.authenticate, NetEvent.getFlightInfo, NetEvent.doGet,
                      NetEvent.authenticate, NetEvent.getFlightInfo, NetEvent.doGet]
    match get_batch_limit inp.row_count inp.row_size with
    | Except.error msg => (ev, Except.error (FlightError.pyError msg))
    | Except.ok n_batches =>
      match get_names inp.attachment dst with
      | Except.error e => (ev, Except.error e)
      | Except.ok names =>
        if names.length < 2 then (ev, Except.error FlightError.indexError)
        else
          (ev, Except.ok [{
            datasource_type_name := inp.type_name
            connection_properties := props
            interaction_properties := InteractionProps.db
              ⟨(names.getD (names.length - 2) none).getD "",
               (names.getD (names.length - 1) none).getD ""⟩
            num_partitions := n_batches }])
  else if dst = some "file" then
    match get_names inp.attachment dst with
    | Except.error e => (ev0, Except.error e)
    | Except.ok names =>
      (ev0, Except.ok ((discover_input_data names).map (fun input_key_file =>
        { datasource_type_name := inp.type_name
          connection_properties := props
          interaction_properties := InteractionProps.file
            { infer_schema := "true"
              file_name := input_key_file
              bucket := match lookup? props "bucket" with
                        | some v => some v
                        | none => names.getD 1 none
              extra := inp.cos_props }
          num_partitions := inp.n_batches })))
  else if dst = some "generic" then (ev0, Except.error FlightError.notImplemented)
  else (ev0, Except.error (FlightError.dataSourceTypeNotRecognized dst))

/-- FlightService.get_endpoints, service.py lines 117-138: authenticate
first, then select the commands, then one get_flight_info per command. -/
def get_endpoints_trace (inp : SelectInputs) :
    List NetEvent × Except FlightError (List Command) :=
  let sel := select_source_command inp
  (NetEvent.authenticate :: sel.1 ++ (match sel.2 with
    | Except.ok cmds => cmds.map (fun _ => NetEvent.getFlightInfo)
    | Except.error _ => []), sel.2)

/-! Concrete inputs used by the counterexamples and witnesses below.
One MiB is 1048576 bytes; DATA_SIZE_LIMIT is 1024 MiB. -/

/-- A batch of 3 rows of 429496729 bytes each (1288490187 bytes total, just
over the 1073741824-byte ceiling); its row-size estimate divides the ceiling
with fractional part 0.50000000017, which Python round rounds up to 3 rows. -/
def dfOversize : Df := ⟨List.replicate 3 429496729⟩

/-- A 400 MiB batch: 100 rows of 4 MiB. -/
def df400MiB : Df := ⟨List.replicate 100 4194304⟩

/-- A 224 MiB batch: 56 rows of 4 MiB (1024 - 400 - 400 = 224). -/
def df224MiB : Df := ⟨List.replicate 56 4194304⟩

/-- A 2 GiB batch: 512 rows of 4 MiB. -/
def df2GiB : Df := ⟨List.replicate 512 4194304⟩

/-- A 1 GiB batch: 256 rows of 4 MiB. -/
def df1GiB : Df := ⟨List.replicate 256 4194304⟩

/-- A 4 MiB batch: 4 rows of 1 MiB. -/
def dfSmall : Df := ⟨List.replicate 4 1048576⟩

/-- Inputs whose attachment classifies as the generic source type. -/
def c6_inputs : SelectInputs :=
  ⟨[("a1", "generic")], ⟨"a1", none, []⟩, [("host", "h")], "generic-type", 1, 0, 0, []⟩

/-- Inputs for spec scenario B: a file attachment whose connection_path is
conn/bucket1/data/file.csv and whose connection properties carry no bucket. -/
def c9_inputs : SelectInputs :=
  ⟨[("aX", "file")], ⟨"aX", some "conn/bucket1/data/file.csv", []⟩,
   [("host", "h")], "cos-type", 1, 0, 0, []⟩

end Flight

deriving instance DecidableEq for Except

namespace Flight

/-! Helper lemmas. -/

theorem read_batch_of_stopped {st : ReadState} (df : Df) (h : st.stop_reading = true) :
    read_batch st df = st := by
  simp [read_batch, h]

theorem run_reads_cons (o : Outcome) (outs : List Outcome) (st : ReadState) :
    run_reads (o :: outs) st =
      run_reads outs (match o with
        | Except.error _ => st
        | Except.ok df => read_batch st df) := rfl

theorem run_reads_stop_mono (outs : List Outcome) :
    ∀ st : ReadState, st.stop_reading = true → (run_reads outs st).stop_reading = true := by
  induction outs with
  | nil => intro st h; exact h
  | cons o rest ih =>
    intro st h
    cases o with
    | error e => exact ih st h
    | ok df =>
      show (run_reads rest (read_batch st df)).stop_reading = true
      rw [read_batch_of_stopped df h]
      exact ih st h

theorem sum_of_uniform {l : List Nat} {r : Nat} (h : ∀ x ∈ l, x = r) :
    l.sum = l.length * r := by
  rw [List.sum_eq_card_nsmul l r h, smul_eq_mul]

theorem row_size_est_uniform {df : Df} {r : Nat} (h : ∀ x ∈ df.rows, x = r) :
    row_size_est df = 0 ∨ row_size_est df = r := by
  match df with
  | ⟨[]⟩ => left; rfl
  | ⟨[a]⟩ => left; simp [row_size_est, Df.iloc, getsizeof]
  | ⟨a :: b :: t⟩ =>
    right
    have hb : b = r := h b (by simp)
    simp [row_size_est, Df.iloc, getsizeof, List.take, hb]

theorem sumBytes_append (dfs : List Df) (df : Df) :
    sumBytes (dfs ++ [df]) = sumBytes dfs + getsizeof df := by
  simp [sumBytes]

theorem getsizeof_concat (dfs : List Df) : getsizeof (concatDfs dfs) = sumBytes dfs := by
  simp only [concatDfs, getsizeof, sumBytes, List.sum_flatten, List.map_map]
  rfl

theorem read_batch_uniform_inv {r : Nat} {st : ReadState} {df : Df}
    (h1 : ∀ d ∈ st.dfs, ∀ x ∈ d.rows, x = r)
    (h2 : sumBytes st.dfs ≤ DATA_SIZE_LIMIT)
    (h3 : ∀ x ∈ df.rows, x = r)
    (h4 : getsizeof df ≤ DATA_SIZE_LIMIT) :
    (∀ d ∈ (read_batch st df).dfs, ∀ x ∈ d.rows, x = r) ∧
      sumBytes (read_batch st df).dfs ≤ DATA_SIZE_LIMIT := by
  unfold read_batch
  by_cases hs : st.stop_reading
  · simp only [hs, if_true]
    exact ⟨h1, h2⟩
  · simp only [hs, if_false, Bool.false_eq_true]
    rw [if_neg (not_lt.mpr h4)]
    by_cases he : row_size_est df = 0
    · have htot : total_size (row_size_est df) st.dfs = 0 := by
        simp [total_size, he]
      rw [htot]
      rw [if_pos (Nat.zero_le _), if_pos he]
      exact ⟨h1, h2⟩
    · have hrr : row_size_est df = r := (row_size_est_uniform h3).resolve_left he
      have htot : total_size (row_size_est df) st.dfs = sumBytes st.dfs := by
        unfold total_size sumBytes
        congr 1
        apply List.map_congr_left
        intro d hd
        rw [hrr]
        show r * d.rows.length = d.rows.sum
        rw [sum_of_uniform (h1 d hd), Nat.mul_comm]
      rw [htot, if_pos h2, if_neg he]
      constructor
      · intro d hd
        rcases List.mem_append.mp hd with hmem | hmem
        · exact h1 d hmem
        · rcases List.mem_singleton.mp hmem with rfl
          intro x hx
          exact h3 x (List.take_subset _ _ hx)
      · rw [sumBytes_append]
        have hle1 : getsizeof (df.iloc ((DATA_SIZE_LIMIT - sumBytes st.dfs) / row_size_est df)) ≤
            DATA_SIZE_LIMIT - sumBytes st.dfs := by
          unfold getsizeof Df.iloc
          calc (df.rows.take ((DATA_SIZE_LIMIT - sumBytes st.dfs) / row_size_est df)).sum
              = (df.rows.take ((DATA_SIZE_LIMIT - sumBytes st.dfs) / row_size_est df)).length * r := by
                apply sum_of_uniform
                intro x hx
                exact h3 x (List.take_subset _ _ hx)
            _ ≤ (DATA_SIZE_LIMIT - sumBytes st.dfs) / row_size_est df * r := by
                apply Nat.mul_le_mul_right
                exact List.length_take_le _ _
            _ = (DATA_SIZE_LIMIT - sumBytes st.dfs) / r * r := by rw [hrr]
            _ ≤ DATA_SIZE_LIMIT - sumBytes st.dfs := Nat.div_mul_le_self _ _
        omega

theorem run_reads_uniform_inv {r : Nat} (outs : List Outcome) :
    ∀ st : ReadState,
      (∀ d ∈ st.dfs, ∀ x ∈ d.rows, x = r) →
      sumBytes st.dfs ≤ DATA_SIZE_LIMIT →
      (∀ df, Except.ok df ∈ outs →
        (∀ x ∈ df.rows, x = r) ∧ getsizeof df ≤ DATA_SIZE_LIMIT) →
      (∀ d ∈ (run_reads outs st).dfs, ∀ x ∈ d.rows, x = r) ∧
        sumBytes (run_reads outs st).dfs ≤ DATA_SIZE_LIMIT := by
  induction outs with
  | nil => intro st ha hb _; exact ⟨ha, hb⟩
  | cons o rest ih =>
    intro st ha hb hout
    cases o with
    | error e =>
      exact ih st ha hb (fun df hdf => hout df (List.mem_cons_of_mem _ hdf))
    | ok df =>
      show (∀ d ∈ (run_reads rest (read_batch st df)).dfs, ∀ x ∈ d.rows, x = r) ∧
        sumBytes (run_reads rest (read_batch st df)).dfs ≤ DATA_SIZE_LIMIT
      have hdf := hout df (List.mem_cons_self _ _)
      have hstep := read_batch_uniform_inv ha hb hdf.1 hdf.2
      exact ih (read_batch st df) hstep.1 hstep.2
        (fun d hd => hout d (List.mem_cons_of_mem _ hd))

theorem nat_ceil_div_eq (a b : Nat) (hb : 0 < b) :
    Nat.ceil ((a : ℚ) / (b : ℚ)) = (a + b - 1) / b := by
  have hbQ : (0 : ℚ) < (b : ℚ) := by exact_mod_cast hb
  apply le_antisymm
  · rw [Nat.ceil_le, div_le_iff₀ hbQ]
    have hN : a ≤ (a + b - 1) / b * b := by
      have hd := Nat.div_add_mod (a + b - 1) b
      have hm : (a + b - 1) % b < b := Nat.mod_lt _ hb
      have hc : (a + b - 1) / b * b = b * ((a + b - 1) / b) := Nat.mul_comm _ _
      omega
    exact_mod_cast hN
  · have h1 : (a : ℚ) ≤ (Nat.ceil ((a : ℚ) / (b : ℚ)) : ℚ) * (b : ℚ) := by
      rw [← div_le_iff₀ hbQ]
      exact Nat.le_ceil _
    have h2 : a ≤ Nat.ceil ((a : ℚ) / (b : ℚ)) * b := by exact_mod_cast h1
    rw [Nat.div_le_iff_le_mul_add_pred hb, Nat.mul_comm]
    omega

theorem lookup?_eraseKey_self (props : List (String × String)) (k : String) :
    lookup? (eraseKey props k) k = none := by
  induction props with
  | nil => rfl
  | cons p rest ih =>
    by_cases h : p.1 = k
    · simpa [eraseKey, h] using ih
    · simpa [eraseKey, lookup?, h] using ih

theorem lookup?_eraseKey_ne (props : List (String × String)) (k k' : String)
    (h : k' ≠ k) : lookup? (eraseKey props k) k' = lookup? props k' := by
  induction props with
  | nil => rfl
  | cons p rest ih =>
    by_cases h1 : p.1 = k
    · have h2 : ¬ k = k' := fun he => h he.symm
      simpa [eraseKey, lookup?, h1, h2] using ih
    · by_cases h2 : p.1 = k'
      · simp [eraseKey, lookup?, h1, h2, h]
      · simpa [eraseKey, lookup?, h1, h2] using ih

theorem run_reads_drop_errors (outs : List Outcome) :
    ∀ st : ReadState,
      run_reads outs st = run_reads ((outs.filterMap Except.toOption).map Except.ok) st := by
  induction outs with
  | nil => intro st; rfl
  | cons o rest ih =>
    intro st
    cases o with
    | error e => simpa [run_reads_cons, List.filterMap_cons, Except.toOption] using ih st
    | ok df => simpa [run_reads_cons, List.filterMap_cons, Except.toOption]
        using ih (read_batch st df)

/-! Claim theorems. -/

/-- C1 (counterexample): the claim says every completed read keeps the
total accepted size at or under DATA_SIZE_LIMIT after both truncation
passes.  A single 1288490187-byte batch refutes it: the per-task pass
truncates it to round(DATA_SIZE_LIMIT / 429496729) = 3 rows, i.e. not at
all, and the final pass drops (overshoot // row) * 2 = 0 rows because the
overshoot of 214748363 bytes is below one estimated row size, so read
completes with a table of 1288490187 bytes, above the 1073741824 ceiling. -/
theorem c1_counterexample :
    read [Except.ok dfOversize] = Except.ok dfOversize ∧
      DATA_SIZE_LIMIT < getsizeof dfOversize := by decide

/-- C1 (amended): when every fetched batch has rows of one common byte
size r (so the code's row-size estimate is exact) and no single batch is
itself estimated above DATA_SIZE_LIMIT, every completed read returns a
table of total estimated size at most DATA_SIZE_LIMIT; without those two
provisos the total can exceed the ceiling (see the counterexample). -/
theorem c1_amended (r : Nat) (outs : List Outcome) (t : Df)
    (hb : ∀ df, Except.ok df ∈ outs →
      (∀ x ∈ df.rows, x = r) ∧ getsizeof df ≤ DATA_SIZE_LIMIT)
    (ht : read outs = Except.ok t) :
    getsizeof t ≤ DATA_SIZE_LIMIT := by
  have hinv := run_reads_uniform_inv (r := r) outs initState
    (by intro d hd; cases hd) (by simp [initState, sumBytes]) hb
  have hsum : sumBytes (run_reads outs initState).dfs ≤ DATA_SIZE_LIMIT := hinv.2
  simp only [read] at ht
  by_cases hemp : (run_reads outs initState).dfs.isEmpty
  · rw [if_pos hemp] at ht
    cases ht
  · rw [if_neg hemp] at ht
    by_cases hlen : (concatDfs (run_reads outs initState).dfs).len = 0
    · rw [if_pos hlen] at ht
      cases ht
    · rw [if_neg hlen] at ht
      have hsz : getsizeof (concatDfs (run_reads outs initState).dfs) ≤ DATA_SIZE_LIMIT := by
        rw [getsizeof_concat]
        exact hsum
      have hno : ¬ (0 < (getsizeof (concatDfs (run_reads outs initState).dfs) : Int) -
          (DATA_SIZE_LIMIT : Int)) := by
        have hc : (getsizeof (concatDfs (run_reads outs initState).dfs) : Int) ≤
            (DATA_SIZE_LIMIT : Int) := by exact_mod_cast hsz
        omega
      rw [if_neg hno] at ht
      cases ht
      exact hsz

/-- C1 (witness for the amended theorem): a read of one uniform 2-row batch
of 858993458 bytes completes under the ceiling. -/
theorem c1_witness : getsizeof (⟨List.replicate 2 429496729⟩ : Df) ≤ DATA_SIZE_LIMIT :=
  c1_amended 429496729 [Except.ok ⟨List.replicate 2 429496729⟩] _
    (by
      intro df hdf
      have h := List.mem_singleton.mp hdf
      cases h
      exact ⟨by decide, by decide⟩)
    (by decide)

/-- C2 (counterexample): in the claim's own scenario — three 400 MiB
batches against the 1 GiB ceiling — the code truncates the third batch via
the ordinary append path (service.py lines 362-365), which does NOT set
stop_reading, contradicting the claimed "stopped becomes true". -/
theorem c2_counterexample :
    (run_reads [Except.ok df400MiB, Except.ok df400MiB, Except.ok df400MiB]
      initState).stop_reading = false := by decide

set_option maxRecDepth 8000 in
/-- C2 (amended): the truncate-and-stop path fires only when a batch's
estimated size alone exceeds the full DATA_SIZE_LIMIT, not the remaining
budget (a 2 GiB batch is cut to the 256 rows that fit under the full
ceiling and stop_reading is set); a batch that fits under the ceiling but
overflows the remaining budget is cut to the remaining budget by the
append path with stop_reading left false: for the 400 MiB, 400 MiB,
400 MiB scenario the first two are accepted in full, the third is cut to
224 MiB, stop_reading stays false, and the accepted total is exactly the
1073741824-byte ceiling. -/
theorem c2_amended :
    read_batch initState df2GiB = ⟨[df1GiB], true⟩ ∧
    run_reads [Except.ok df400MiB, Except.ok df400MiB, Except.ok df400MiB] initState =
      ⟨[df400MiB, df400MiB, df224MiB], false⟩ ∧
    sumBytes [df400MiB, df400MiB, df224MiB] = DATA_SIZE_LIMIT := by decide

/-- C3 (counterexample): the claim says a DataStreamError from any single
endpoint aborts the whole read with no table.  In the code the error is
raised inside a reader thread and threading.Thread.join does not re-raise
it, so a read with one good endpoint and one failing endpoint still
returns the good endpoint's table. -/
theorem c3_counterexample :
    read [Except.ok dfSmall, Except.error "DataStreamError"] = Except.ok dfSmall := by
  decide

/-- C3 (amended): an error raised in an endpoint's reader thread is
swallowed: the failed endpoint simply contributes no batch and read
behaves exactly as if only the successful endpoints existed (in particular
it returns a partial table whenever at least one batch was accepted, and
fails at the concatenation step only when none was). -/
theorem c3_amended (outs : List Outcome) :
    read outs = read ((outs.filterMap Except.toOption).map Except.ok) := by
  simp only [read]
  rw [← run_reads_drop_errors]

/-- C5 (counterexample): the claim covers every batch that fits the budget,
but a single-row in-budget batch (here one 10-byte row) has a zero row-size
estimate (getsizeof(df.iloc\x5b:2\x5d) - getsizeof(df.iloc\x5b:1\x5d) = 0), so the
division (DATA_SIZE_LIMIT - total_size) // row_size at service.py line 363
raises ZeroDivisionError inside the reader thread: both of the claim's
premises hold, yet the batch is dropped — the shared state is unchanged and
nothing is appended. -/
theorem c5_counterexample :
    getsizeof (⟨[10]⟩ : Df) ≤ DATA_SIZE_LIMIT ∧
    total_size (row_size_est ⟨[10]⟩) initState.dfs + getsizeof (⟨[10]⟩ : Df) ≤
      DATA_SIZE_LIMIT ∧
    read_batch initState ⟨[10]⟩ = initState ∧
    read_batch initState ⟨[10]⟩ ≠ ⟨initState.dfs ++ [⟨[10]⟩], false⟩ := by decide

/-- C5 (amended): provided the batch's estimated row size is nonzero (at
least two rows with a nonzero second-row size), a batch whose own estimated
size is within DATA_SIZE_LIMIT and which still fits the remaining budget
(the code's running total, priced at this batch's estimated row size, plus
this batch's estimated size stays at or under the ceiling) is appended
whole — its truncation bound is at least its row count — and the running
total grows accordingly since it is recomputed from the appended list.
When the estimate is zero the division at service.py line 363 raises
ZeroDivisionError and the batch is dropped (see the counterexample). -/
theorem c5_full_append (st : ReadState) (df : Df)
    (h0 : st.stop_reading = false)
    (h1 : row_size_est df ≠ 0)
    (h2 : getsizeof df ≤ DATA_SIZE_LIMIT)
    (h3 : total_size (row_size_est df) st.dfs + row_size_est df * df.len ≤ DATA_SIZE_LIMIT) :
    read_batch st df = ⟨st.dfs ++ [df], false⟩ := by
  have hnb : ¬ (DATA_SIZE_LIMIT < getsizeof df) := not_lt.mpr h2
  have htle : total_size (row_size_est df) st.dfs ≤ DATA_SIZE_LIMIT := by omega
  have hk : df.rows.length ≤
      (DATA_SIZE_LIMIT - total_size (row_size_est df) st.dfs) / row_size_est df := by
    rw [Nat.le_div_iff_mul_le (Nat.pos_of_ne_zero h1)]
    have hc : df.rows.length * row_size_est df = row_size_est df * df.len :=
      Nat.mul_comm _ _
    omega
  have hiloc : df.iloc ((DATA_SIZE_LIMIT - total_size (row_size_est df) st.dfs) /
      row_size_est df) = df := by
    unfold Df.iloc
    rw [List.take_of_length_le hk]
  simp only [read_batch, h0, Bool.false_eq_true, if_false]
  rw [if_neg hnb, if_pos htle, if_neg h1, hiloc]

/-- C5 (witness): a fresh state accepts a 4-row, 4 MiB batch whole. -/
theorem c5_witness : read_batch initState dfSmall = ⟨[dfSmall], false⟩ :=
  c5_full_append initState dfSmall rfl (by decide) (by decide) (by decide)

/-- C7: the shared stop_reading flag starts false and is monotone — once a
state has it true, no further processing of endpoint outcomes (in any
order, with any batches) ever resets it to false. -/
theorem c7_stop_monotone :
    initState.stop_reading = false ∧
    ∀ (outs : List Outcome) (st : ReadState), st.stop_reading = true →
      (run_reads outs st).stop_reading = true :=
  ⟨rfl, fun outs st h => run_reads_stop_mono outs st h⟩

/-- C7 (witness): instantiated at one outcome list and a stopped state. -/
theorem c7_witness :
    initState.stop_reading = false ∧
    (run_reads [Except.ok dfSmall] ⟨[], true⟩).stop_reading = true :=
  ⟨c7_stop_monotone.1, c7_stop_monotone.2 [Except.ok dfSmall] ⟨[], true⟩ rfl⟩

/-- C4 (counterexample): the claim keys the bands to the product
rowCount * rowSize against DATA_SIZE_LIMIT, predicting 1 partition when
the product is below a tenth of the ceiling.  At rowCount = 1,
rowSize = 100000000 the product (100000000) is below 107374182.4, yet the
code computes fraction = 1 / (DATA_SIZE_LIMIT // rowSize) = 1 / 10 and the
floor division makes it land exactly in the 5-partition band. -/
theorem c4_counterexample :
    get_batch_limit 1 100000000 = Except.ok 5 ∧
      10 * (1 * 100000000) < DATA_SIZE_LIMIT := by
  constructor
  · simp only [get_batch_limit, DATA_SIZE_LIMIT]
    norm_num
  · decide

/-- C4 (amended): the planner's fraction is rowCount divided by
maxRows = DATA_SIZE_LIMIT // rowSize (floor division), not
rowCount * rowSize / DATA_SIZE_LIMIT: for 1 ≤ rowSize ≤ DATA_SIZE_LIMIT it
picks 1 partition when 10 * rowCount < maxRows, 5 when
maxRows ≤ 10 * rowCount and rowCount ≤ maxRows, and
ceil(rowCount / maxRows) + 10 = (rowCount + maxRows - 1) / maxRows + 10
when rowCount > maxRows; the claim's concrete scenario
(rowCount = 1000000, rowSize = 2000) does yield 12. -/
theorem c4_amended (row_count row_size : Nat) (hpos : 0 < row_size)
    (hle : row_size ≤ DATA_SIZE_LIMIT) :
    (10 * row_count < DATA_SIZE_LIMIT / row_size →
      get_batch_limit row_count row_size = Except.ok 1) ∧
    (DATA_SIZE_LIMIT / row_size ≤ 10 * row_count →
      row_count ≤ DATA_SIZE_LIMIT / row_size →
      get_batch_limit row_count row_size = Except.ok 5) ∧
    (DATA_SIZE_LIMIT / row_size < row_count →
      get_batch_limit row_count row_size =
        Except.ok ((row_count + DATA_SIZE_LIMIT / row_size - 1) /
          (DATA_SIZE_LIMIT / row_size) + 10)) ∧
    get_batch_limit 1000000 2000 = Except.ok 12 := by
  have hm : 0 < DATA_SIZE_LIMIT / row_size := Nat.div_pos hle hpos
  have hmQ : (0 : ℚ) < ((DATA_SIZE_LIMIT / row_size : Nat) : ℚ) := by exact_mod_cast hm
  have hiff1 : ((1 : ℚ) / 10 ≤ (row_count : ℚ) / ((DATA_SIZE_LIMIT / row_size : Nat) : ℚ)) ↔
      DATA_SIZE_LIMIT / row_size ≤ 10 * row_count := by
    rw [div_le_div_iff₀ (by norm_num) hmQ, one_mul]
    rw [show ((row_count : ℚ) * 10) = ((10 * row_count : Nat) : ℚ) by push_cast; ring]
    exact_mod_cast Iff.rfl
  have hiff2 : ((row_count : ℚ) / ((DATA_SIZE_LIMIT / row_size : Nat) : ℚ) ≤ 1) ↔
      row_count ≤ DATA_SIZE_LIMIT / row_size := by
    rw [div_le_one hmQ]
    exact_mod_cast Iff.rfl
  have hiff3 : ((row_count : ℚ) / ((DATA_SIZE_LIMIT / row_size : Nat) : ℚ) < (1 : ℚ) / 10) ↔
      10 * row_count < DATA_SIZE_LIMIT / row_size := by
    rw [div_lt_div_iff₀ hmQ (by norm_num), one_mul]
    rw [show ((row_count : ℚ) * 10) = ((10 * row_count : Nat) : ℚ) by push_cast; ring]
    exact_mod_cast Iff.rfl
  refine ⟨?_, ?_, ?_, ?_⟩
  · intro h
    simp only [get_batch_limit]
    rw [if_neg (by omega : ¬ DATA_SIZE_LIMIT / row_size = 0)]
    rw [if_neg (by
      intro hand
      exact absurd (hiff1.mp hand.1) (by omega))]
    rw [if_pos (hiff3.mpr h)]
  · intro ha hb
    simp only [get_batch_limit]
    rw [if_neg (by omega : ¬ DATA_SIZE_LIMIT / row_size = 0)]
    rw [if_pos ⟨hiff1.mpr ha, hiff2.mpr hb⟩]
  · intro h
    simp only [get_batch_limit]
    rw [if_neg (by omega : ¬ DATA_SIZE_LIMIT / row_size = 0)]
    rw [if_neg (by
      intro hand
      exact absurd (hiff2.mp hand.2) (by omega))]
    rw [if_neg (by
      intro hlt
      exact absurd (hiff3.mp hlt) (by omega))]
    rw [nat_ceil_div_eq row_count (DATA_SIZE_LIMIT / row_size) hm]
  · simp only [get_batch_limit, DATA_SIZE_LIMIT]
    norm_num
    have hc : Nat.ceil ((100000 : ℚ) / 53687) = 2 := by
      rw [Nat.ceil_eq_iff (by norm_num)]
      norm_num
    rw [hc]

/-- C4 (witness for the amended theorem): rowCount = 3, rowSize = 100000000
gives maxRows = 10 and lands in the 5-partition band. -/
theorem c4_witness : get_batch_limit 3 100000000 = Except.ok 5 :=
  (c4_amended 3 100000000 (by decide) (by decide)).2.1 (by decide) (by decide)

/-- C6 (counterexample): the claim says a generic-tagged attachment fails
with NotImplemented before any network call, including the
data-source-type lookup.  But the tag IS the result of that lookup: the
trace of a generic read contains the listDataSourceTypes metadata call
(and the Flight authenticate handshake) before the NotImplementedError. -/
theorem c6_counterexample :
    NetEvent.listDataSourceTypes ∈ (get_endpoints_trace c6_inputs).1 ∧
      (get_endpoints_trace c6_inputs).2 = Except.error FlightError.notImplemented := by
  decide

/-- C6 (amended): for every attachment whose classified source-type tag is
generic, the read fails with NotImplementedError after exactly the Flight
authenticate handshake and the data-source-type lookup (which is required
to classify the tag), and before any get_flight_info session open or
do_get endpoint read. -/
theorem c6_amended (inp : SelectInputs)
    (h : classify_source_type inp.resources inp.attachment.datasource_type = some "generic") :
    get_endpoints_trace inp = ([NetEvent.authenticate, NetEvent.listDataSourceTypes],
      Except.error FlightError.notImplemented) := by
  simp [get_endpoints_trace, select_source_command, h]

/-- C6 (witness): the concrete generic-tagged inputs instantiate the
amended theorem. -/
theorem c6_witness :
    get_endpoints_trace c6_inputs = ([NetEvent.authenticate, NetEvent.listDataSourceTypes],
      Except.error FlightError.notImplemented) :=
  c6_amended c6_inputs (by decide)

/-- C8 (counterexample): the claim says username_password_encryption is
removed whenever present.  The two dels share one try/except, so when
username_password_security is absent the first del raises KeyError and the
second never runs: the encryption key survives. -/
theorem c8_counterexample :
    lookup? [("username_password_encryption", "enc"), ("host", "h")]
        "username_password_encryption" = some "enc" ∧
      del_sensitive_props [("username_password_encryption", "enc"), ("host", "h")] =
        [("username_password_encryption", "enc"), ("host", "h")] := by decide

/-- C8 (amended): before building commands the builder leaves every key
other than the two sensitive ones untouched, always ends with no
username_password_security entry, strips username_password_encryption only
when username_password_security is also present, and when the latter is
absent removes nothing at all (even a present encryption key); no case
fails. -/
theorem c8_amended (props : List (String × String)) :
    (∀ k, k ≠ "username_password_security" → k ≠ "username_password_encryption" →
      lookup? (del_sensitive_props props) k = lookup? props k) ∧
    lookup? (del_sensitive_props props) "username_password_security" = none ∧
    (lookup? props "username_password_security" = none →
      del_sensitive_props props = props) ∧
    (lookup? props "username_password_security" ≠ none →
      lookup? (del_sensitive_props props) "username_password_encryption" = none) := by
  by_cases hsec : lookup? props "username_password_security" = none
  · have hd : del_sensitive_props props = props := by
      unfold del_sensitive_props
      rw [hsec]
    exact ⟨fun k _ _ => by rw [hd], by rw [hd]; exact hsec, fun _ => hd,
      fun hne => absurd hsec hne⟩
  · obtain ⟨v, hv⟩ : ∃ v, lookup? props "username_password_security" = some v := by
      cases h : lookup? props "username_password_security" with
      | none => exact absurd h hsec
      | some v => exact ⟨v, rfl⟩
    by_cases henc : lookup? (eraseKey props "username_password_security")
        "username_password_encryption" = none
    · have hd : del_sensitive_props props = eraseKey props "username_password_security" := by
        unfold del_sensitive_props
        rw [hv]
        simp only [henc]
      refine ⟨?_, ?_, ?_, ?_⟩
      · intro k hk1 _
        rw [hd]
        exact lookup?_eraseKey_ne props "username_password_security" k hk1
      · rw [hd]
        exact lookup?_eraseKey_self props "username_password_security"
      · intro habs
        exact absurd habs hsec
      · intro _
        rw [hd]
        exact henc
    · obtain ⟨w, hw⟩ : ∃ w, lookup? (eraseKey props "username_password_security")
          "username_password_encryption" = some w := by
        cases h : lookup? (eraseKey props "username_password_security")
            "username_password_encryption" with
        | none => exact absurd h henc
        | some w => exact ⟨w, rfl⟩
      have hd : del_sensitive_props props =
          eraseKey (eraseKey props "username_password_security")
            "username_password_encryption" := by
        unfold del_sensitive_props
        rw [hv]
        simp only [hw]
      refine ⟨?_, ?_, ?_, ?_⟩
      · intro k hk1 hk2
        rw [hd, lookup?_eraseKey_ne _ "username_password_encryption" k hk2]
        exact lookup?_eraseKey_ne props "username_password_security" k hk1
      · rw [hd, lookup?_eraseKey_ne _ "username_password_encryption"
          "username_password_security" (by decide)]
        exact lookup?_eraseKey_self props "username_password_security"
      · intro habs
        exact absurd habs hsec
      · intro _
        rw [hd]
        exact lookup?_eraseKey_self _ "username_password_encryption"

/-- C8 (witness for the amended theorem): with both sensitive keys present
the host key is untouched and the encryption key is gone. -/
theorem c8_witness :
    lookup? (del_sensitive_props [("username_password_security", "s"),
        ("username_password_encryption", "e"), ("host", "h")]) "host" =
      lookup? [("username_password_security", "s"),
        ("username_password_encryption", "e"), ("host", "h")] "host" ∧
    lookup? (del_sensitive_props [("username_password_security", "s"),
        ("username_password_encryption", "e"), ("host", "h")])
      "username_password_encryption" = none :=
  ⟨(c8_amended _).1 "host" (by decide) (by decide),
   (c8_amended _).2.2.2 (by decide)⟩

/-- C9: for a file attachment with connection_path conn/bucket1/data/file.csv
the resolver splits on the slash into the four expected names, and the
built command takes names at index 1 (bucket1) as the bucket and the joined
remainder data/file.csv as the file name (the file-part discovery of the
absent utils.py is modelled from the spec). -/
theorem c9_file_locator :
    pySplit "conn/bucket1/data/file.csv" '/' = ["conn", "bucket1", "data", "file.csv"] ∧
    (select_source_command c9_inputs).2 = Except.ok [{
      datasource_type_name := "cos-type"
      connection_properties := [("host", "h")]
      interaction_properties := InteractionProps.file
        { infer_schema := "true"
          file_name := "data/file.csv"
          bucket := some "bucket1"
          extra := [] }
      num_partitions := 1 }] := by decide

/-- C10: with zero endpoints no batch is ever appended and read raises the
pandas concatenation error (pd.concat of an empty list) instead of
returning an empty table. -/
theorem c10_empty_read_raises :
    read ([] : List Outcome) = Except.error "No objects to concatenate" := rfl

end Flight
